import Mathlib

/-!
Shallow embedding of the nvmmcp server core (connection lifecycle,
view_buffers orchestration and report assembly) with proofs about its
behaviour.  Definitions mirror the TypeScript source:
  - `src/socket-utils.ts`     : `isTimeoutError`
  - `src/utils/neovim-connection.ts` : `connectToNeovim`, `resetNvimConnection`
  - `src/index.ts` (tool-call handler) : connection recovery, window/buffer
    enumeration, layout classification, buffer-list sort
  - `src/actions/view-buffers.ts` : line-range computation, cursor marker,
    content formatting
JavaScript machine integers in this code stay far below 2^53, so they are
modelled as `Int` (and string indices as `Nat`); strings are modelled as
`List Char` so that `substring`/`toLowerCase` become `take`/`drop`/`map`.
-/

namespace Nvmmcp

/-! ### JavaScript string primitives used by the source -/

/-- Model of JavaScript `s.substring(indexStart, indexEnd)`: both indices are
clamped to `[0, s.length]` and swapped when out of order. -/
def jsSubstring (s : List Char) (indexStart indexEnd : Nat) : List Char :=
  let b := min indexStart s.length
  let e := min indexEnd s.length
  (s.take (max b e)).drop (min b e)

/-- Model of JavaScript `s.substring(indexStart)` (up to the end). -/
def jsSubstringFrom (s : List Char) (indexStart : Nat) : List Char :=
  s.drop indexStart

/-- Model of JavaScript `s.padStart(5, ' ')` used for line numbers. -/
def padStart5 (s : List Char) : List Char :=
  List.replicate (5 - s.length) ' ' ++ s

/-! ### `view-buffers.ts` lines 127-131: cursor-neighbourhood line range

`const cursorLine = cursor[0] - 1;`
`const contextLines = 100;`
`const startLine = Math.max(0, cursorLine - contextLines);`
`const endLine = Math.min(lineCount, cursorLine + contextLines + 1);`
-/

/-- `contextLines` from the source (±100 lines around the cursor). -/
def contextLines : Int := 100

/-- 0-based start of the fetched window, from a 1-based cursor row. -/
def rangeStartLine (cursorRow lineCount : Int) : Int :=
  max 0 ((cursorRow - 1) - contextLines)

/-- 0-based end-exclusive end of the fetched window. -/
def rangeEndLine (cursorRow lineCount : Int) : Int :=
  min lineCount ((cursorRow - 1) + contextLines + 1)

/-- The `visibleRange` object pushed into a window snapshot
(`view-buffers.ts` lines 193-197). -/
structure VisibleRange where
  startLine : Int
  endLine : Int
  context : Int
deriving DecidableEq, Repr

/-- `visibleRange: { startLine: startLine + 1, endLine: endLine, context: contextLines }`. -/
def displayedVisibleRange (cursorRow lineCount : Int) : VisibleRange :=
  { startLine := rangeStartLine cursorRow lineCount + 1
  , endLine := rangeEndLine cursorRow lineCount
  , context := contextLines }

/-! ### `view-buffers.ts` lines 93-125 and 134-163: line-range call bounds

The full-content path first issues `buffer.getLines(0, lineCount, false)`;
its raw-request fallback uses `const end = Math.max(1, lineCount)`.  The
cursor-neighbourhood path issues `buffer.getLines(startLine, endLine, false)`
and its fallback repeats the same `startLine`/`endLine` bounds. -/

/-- End bound of the primary full-content call: `buffer.getLines(0, lineCount, false)`. -/
def fullContentPrimaryEnd (lineCount : Int) : Int := lineCount

/-- End bound of the full-content raw-request fallback: `Math.max(1, lineCount)`. -/
def fullContentFallbackEnd (lineCount : Int) : Int := max 1 lineCount

/-- End bound used by both the primary and the fallback cursor-neighbourhood
calls (`buffer.getLines(startLine, endLine, false)` and the
`nvim_buf_get_lines` fallback with the same `endLine`). -/
def sectionCallEnd (cursorRow lineCount : Int) : Int :=
  rangeEndLine cursorRow lineCount

/-! ### `view-buffers.ts` lines 165-176: cursor marker insertion

`const beforeCursor = line.substring(0, cursor[1]);`
`const afterCursor = line.substring(cursor[1]);`
`return \x7b$beforeCursor\x7d\x7b$cursorEmoji\x7d\x7b$afterCursor\x7d;`
-/

/-- The cursor indicator emoji from the source. -/
def cursorEmoji : List Char := "🔸".data

/-- Insert the cursor marker at column `col` of a content line. -/
def insertCursorMarker (line : List Char) (col : Nat) : List Char :=
  jsSubstring line 0 col ++ cursorEmoji ++ jsSubstringFrom line col

/-! ### `socket-utils.ts` lines 46-52: `isTimeoutError`

`const errorMsg = String(error).toLowerCase();`
`return errorMsg.includes('timeout') || errorMsg.includes('timed out') ||`
`       errorMsg.includes('econnrefused') || errorMsg.includes('connection refused');`
-/

/-- Model of `String(error).toLowerCase()` on the string form of the error. -/
def toLowerChars (s : List Char) : List Char := s.map Char.toLower

/-- Boolean test that `needle` starts `hay` (character by character). -/
def isPrefixChars : List Char → List Char → Bool
  | [], _ => true
  | _ :: _, [] => false
  | a :: as, b :: bs => a == b && isPrefixChars as bs

/-- Model of JavaScript `hay.includes(needle)` (substring containment). -/
def containsSubstring : List Char → List Char → Bool
  | [], needle => isPrefixChars needle []
  | a :: tl, needle => isPrefixChars needle (a :: tl) || containsSubstring tl needle

/-- `isTimeoutError` from `socket-utils.ts`, on the string form of the error. -/
def isTimeoutError (error : List Char) : Bool :=
  let errorMsg := toLowerChars error
  containsSubstring errorMsg "timeout".data ||
  containsSubstring errorMsg "timed out".data ||
  containsSubstring errorMsg "econnrefused".data ||
  containsSubstring errorMsg "connection refused".data

/-- Case-insensitive containment of a (lowercase) needle, stated
independently of the Boolean scanner: the needle is an infix of the
lowercased string. -/
def ciContains (s needle : List Char) : Prop :=
  needle <:+: toLowerChars s

instance (s needle : List Char) : Decidable (ciContains s needle) := by
  unfold ciContains; infer_instance

/-! ### `utils/neovim-connection.ts`: the connection manager

The module-level `let nvim: any` handle, `isNeovimConnected`,
`connectToNeovim` and `resetNvimConnection`.  The outside world (socket
file presence, the result of `attach`) is an explicit environment; the
`try/catch` around `attach` becomes a match on an `Except` outcome, and
`console.error` diagnostics are collected in a log list. -/

/-- Opaque handle produced by a successful `attach`. -/
structure NvimHandle where
  id : Nat
deriving DecidableEq, Repr

/-- The single piece of shared mutable state: the module-level `nvim` variable
(`none` models both `undefined` and `null`). -/
structure ConnState where
  nvim : Option NvimHandle
deriving DecidableEq, Repr

/-- `isNeovimConnected(): boolean` — `nvim !== undefined && nvim !== null`. -/
def isNeovimConnected (s : ConnState) : Bool :=
  s.nvim.isSome

/-- `resetNvimConnection(): void` — `nvim = null as any`. -/
def resetNvimConnection (_s : ConnState) : ConnState :=
  { nvim := none }

/-- External facts a single `connectToNeovim` call observes: whether the
socket file exists, and what `attach` would do (resolve with a handle, or
reject — covering both refusal and the attach timeout). -/
structure ConnectEnv where
  socketExists : Bool
  attachResult : Except String NvimHandle
deriving Repr

/-- Result of one `connectToNeovim` call: the returned boolean, whether
`attach` was attempted at all, the connection state afterwards, and the
diagnostics written with `console.error`. -/
structure ConnectOutcome where
  ok : Bool
  attachAttempted : Bool
  state : ConnState
  logs : List String
deriving Repr

/-- `connectToNeovim(socketPath)` from `neovim-connection.ts` lines 48-80. -/
def connectToNeovim (env : ConnectEnv) (socketPath : String) (s : ConnState) :
    ConnectOutcome :=
  let header := "Connecting to Neovim via socket: " ++ socketPath
  if env.socketExists = false then
    { ok := false
    , attachAttempted := false
    , state := s
    , logs := [header, "Error: Socket file not found at " ++ socketPath] }
  else
    match env.attachResult with
    | .ok h =>
      { ok := true
      , attachAttempted := true
      , state := { nvim := some h }
      , logs := [header, "Successfully connected to Neovim"] }
    | .error e =>
      { ok := false
      , attachAttempted := true
      , state := s
      , logs := [header, "Failed to connect to Neovim: " ++ e] }

/-! ### `index.ts` lines 679-728: the tool-call handler's connection prelude

Before dispatching any tool, the handler ensures a live connection:
no handle → `connectToNeovim()`, error response on failure; a handle whose
`isNeovimAlive()` probe fails → `nvim = null` then one `connectToNeovim()`,
error response on failure.  The probe outcome and the connect environment
for the (at most one) connect call of this request are explicit inputs. -/

/-- The MCP `ToolResponse` shape, reduced to its text and error flag. -/
structure ToolResponse where
  text : String
  isError : Bool
deriving DecidableEq, Repr

/-- External facts one request's connection prelude observes: the outcome of
the liveness probe (`nvim.apiInfo()` under its 1000 ms timeout) and the
environment of the connect call this request may perform. -/
structure DispatchEnv where
  aliveProbe : Bool
  connectEnv : ConnectEnv
deriving Repr

/-- Result of the connection prelude: `some response` means the request ends
right here with that (error) response; `connectAttempts` counts the
`connectToNeovim` calls made during this request. -/
structure EnsureResult where
  response : Option ToolResponse
  state : ConnState
  connectAttempts : Nat
deriving Repr

/-- The connection-ensuring prelude of the `CallToolRequestSchema` handler. -/
def ensureConnection (env : DispatchEnv) (socketPath : String) (s : ConnState) :
    EnsureResult :=
  match s.nvim with
  | none =>
    let c := connectToNeovim env.connectEnv socketPath s
    if c.ok then
      { response := none, state := c.state, connectAttempts := 1 }
    else
      { response := some
          { text := "Error: Could not connect to Neovim at " ++ socketPath ++
              ". Please start Neovim with: nvim --listen " ++ socketPath
          , isError := true }
      , state := c.state
      , connectAttempts := 1 }
  | some _ =>
    if env.aliveProbe then
      { response := none, state := s, connectAttempts := 0 }
    else
      let s1 : ConnState := { nvim := none }
      let c := connectToNeovim env.connectEnv socketPath s1
      if c.ok then
        { response := none, state := c.state, connectAttempts := 1 }
      else
        { response := some
            { text := "Error: Lost connection to Neovim. Attempted to reconnect but failed. " ++
                "Please ensure Neovim is running with: nvim --listen " ++ socketPath
            , isError := true }
        , state := c.state
        , connectAttempts := 1 }

/-! ### `index.ts` lines 941-1118 / `view-buffers.ts` lines 33-210:
per-window enumeration with fault isolation

Each window of the current tab is processed inside its own `try/catch`; the
data the `await`s would have produced is a `WindowData`, and a failure at any
of those `await`s is an `Except.error` carrying the stringified error.  The
`catch` pushes the fixed placeholder entry and the loop continues. -/

/-- Everything the per-window `await`s fetch for one window. -/
structure WindowData where
  windowNumber : Int
  bufferNumber : Int
  bufferName : String
  cursorRow : Int
  cursorCol : Nat
  lineCount : Int
  sectionLines : List (List Char)
deriving DecidableEq, Repr

/-- One entry of the `result` array assembled for the current tab.  Fields the
error placeholder does not set (`isActiveBuffer`, `totalLines`,
`visibleRange`) are `Option`s. -/
structure WindowSnapshot where
  windowNumber : Except String Int
  isCurrentWindow : Bool
  isActiveBuffer : Option Bool
  bufferNumber : Except String Int
  bufferName : String
  cursor : Int × Int
  totalLines : Option Int
  visibleRange : Option VisibleRange
  content : List Char
deriving Repr

/-- `contentWithCursor` (`view-buffers.ts` lines 166-176): insert the marker
into the line the cursor is on, in the current window only. -/
def contentWithCursorMap (isCurrentWindow : Bool) (startLine cursorLine : Int)
    (cursorCol : Nat) (lines : List (List Char)) : List (List Char) :=
  lines.enum.map fun p =>
    let actualLineNumber := startLine + (p.1 : Int)
    if isCurrentWindow ∧ actualLineNumber = cursorLine then
      insertCursorMarker p.2 cursorCol
    else
      p.2

/-- `formattedContent` (`view-buffers.ts` lines 178-182): prefix each line
with its right-aligned 1-based line number. -/
def numberLines (startLine : Int) (lines : List (List Char)) : List (List Char) :=
  lines.enum.map fun p =>
    padStart5 (toString (startLine + (p.1 : Int) + 1)).data ++ ": ".data ++ p.2

/-- The placeholder the per-window `catch` pushes
(`index.ts` lines 1108-1117). -/
def errorWindowSnapshot (e : String) : WindowSnapshot :=
  { windowNumber := .error "Error"
  , isCurrentWindow := false
  , isActiveBuffer := none
  , bufferNumber := .error "Error"
  , bufferName := "Error processing window"
  , cursor := (0, 0)
  , totalLines := none
  , visibleRange := none
  , content := ("Error processing window: " ++ e).data }

/-- Processing of one window of the current tab: either the successful body
of the loop (`index.ts` lines 943-1107) or the `catch` placeholder. -/
def processWindow (currentWinNumber : Int) :
    Except String WindowData → WindowSnapshot
  | .error e => errorWindowSnapshot e
  | .ok d =>
    let isCurrentWindow := currentWinNumber == d.windowNumber
    let cursorLine := d.cursorRow - 1
    let startLine := rangeStartLine d.cursorRow d.lineCount
    let contentWithCursor :=
      contentWithCursorMap isCurrentWindow startLine cursorLine d.cursorCol
        d.sectionLines
    let formattedContent := numberLines startLine contentWithCursor
    { windowNumber := .ok d.windowNumber
    , isCurrentWindow := isCurrentWindow
    , isActiveBuffer := some isCurrentWindow
    , bufferNumber := .ok d.bufferNumber
    , bufferName := if d.bufferName = "" then "Unnamed" else d.bufferName
    , cursor := (d.cursorRow, (d.cursorCol : Int))
    , totalLines := some d.lineCount
    , visibleRange := some (displayedVisibleRange d.cursorRow d.lineCount)
    , content := List.intercalate "\n".data formattedContent }

/-- The loop over `windowsInCurrentTab`: the `result` array. -/
def processWindowsInTab (currentWinNumber : Int)
    (fetches : List (Except String WindowData)) : List WindowSnapshot :=
  fetches.map (processWindow currentWinNumber)

/-- How many snapshots of the assembled result claim to be the current
window. -/
def countCurrentWindows (currentWinNumber : Int)
    (fetches : List (Except String WindowData)) : Nat :=
  (processWindowsInTab currentWinNumber fetches).countP (fun w => w.isCurrentWindow)

/-- Window numbers of the windows whose fetches succeeded, in order. -/
def okWindowNumbers (fetches : List (Except String WindowData)) : List Int :=
  fetches.filterMap fun f =>
    match f with
    | .ok d => some d.windowNumber
    | .error _ => none

/-! ### `index.ts` lines 774-809 and 1163-1168: the full buffer list

Each open buffer is fetched inside its own `try/catch`; the `catch` pushes
`\x7b number: "Error", name: "Error retrieving buffer info", isLoaded: false \x7d`.
The assembled list is then sorted with the comparator
`(a, b) => numA - numB` where a non-numeric `number` is replaced by `-1`. -/

/-- A buffer `number` field: a resolved number, or the non-numeric
placeholder string pushed by the `catch`. -/
inductive BufNumber
  | num (n : Int)
  | unresolved (label : String)
deriving DecidableEq, Repr

/-- One entry of `allBuffersInfo`. -/
structure BufferInfoEntry where
  number : BufNumber
  name : String
  isLoaded : Bool
deriving DecidableEq, Repr

/-- Everything the per-buffer `await`s fetch for one buffer. -/
structure BufferData where
  number : Int
  name : String
  isLoaded : Bool
deriving DecidableEq, Repr

/-- The placeholder the per-buffer `catch` pushes (`index.ts` lines 802-808). -/
def errorBufferInfo : BufferInfoEntry :=
  { number := .unresolved "Error"
  , name := "Error retrieving buffer info"
  , isLoaded := false }

/-- Processing of one buffer of the `allBuffers` loop. -/
def processBuffer : Except String BufferData → BufferInfoEntry
  | .error _ => errorBufferInfo
  | .ok d =>
    { number := .num d.number
    , name := if d.name = "" then "Unnamed" else d.name
    , isLoaded := d.isLoaded }

/-- The loop over `allBuffers`: the `allBuffersInfo` array (before sorting). -/
def processAllBuffers (fetches : List (Except String BufferData)) :
    List BufferInfoEntry :=
  fetches.map processBuffer

/-- The comparator key: `typeof number === 'number' ? number : -1`. -/
def bufSortKey (b : BufferInfoEntry) : Int :=
  match b.number with
  | .num n => n
  | .unresolved _ => -1

/-- Whether an entry's buffer number is the non-numeric placeholder. -/
def isUnresolvedBuf (b : BufferInfoEntry) : Bool :=
  match b.number with
  | .num _ => false
  | .unresolved _ => true

/-- The order the comparator `numA - numB` sorts by. -/
def bufNumLe (a b : BufferInfoEntry) : Prop :=
  bufSortKey a ≤ bufSortKey b

instance : DecidableRel bufNumLe := fun a b =>
  inferInstanceAs (Decidable (bufSortKey a ≤ bufSortKey b))

instance : IsTotal BufferInfoEntry bufNumLe :=
  ⟨fun a b => Int.le_total (bufSortKey a) (bufSortKey b)⟩

instance : IsTrans BufferInfoEntry bufNumLe :=
  ⟨fun _ _ _ hab hbc => le_trans hab hbc⟩

/-- `allBuffersInfo.sort((a, b) => numA - numB)`: JavaScript `Array.sort` is a
stable sort by the comparator, modelled as an insertion sort by `bufNumLe`. -/
def sortAllBuffers (l : List BufferInfoEntry) : List BufferInfoEntry :=
  List.insertionSort bufNumLe l

/-- The spec's words for the claimed order: every entry after an unresolved
entry is itself unresolved, i.e. unresolvable numbers form a suffix
("sort last"). -/
def unresolvedSortLast (l : List BufferInfoEntry) : Prop :=
  l.Pairwise fun a b => isUnresolvedBuf a = true → isUnresolvedBuf b = true

/-! ### `index.ts` lines 419-463 and 901-916: window layout classification

`determineWindowLayout` counts distinct rows and columns among the windows'
screen positions (after sorting them by row, then column); the handler calls
it only for tabs with more than one window, classifying one window as
`single` and none as `empty`. -/

/-- A window's screen geometry as used by the classifier. -/
structure WinGeom where
  row : Int
  col : Int
  width : Int
  height : Int
deriving DecidableEq, Repr

/-- `\x7b type, description \x7d` returned by the classifier. -/
structure LayoutInfo where
  type : String
  description : String
deriving DecidableEq, Repr

/-- The sort the source applies before counting: by row, then by column. -/
def winPosLe (a b : WinGeom) : Prop :=
  a.row < b.row ∨ (a.row = b.row ∧ a.col ≤ b.col)

instance : DecidableRel winPosLe := fun a b => by
  unfold winPosLe; infer_instance

/-- `determineWindowLayout` (`index.ts` lines 419-463). -/
def determineWindowLayout (windows : List WinGeom) : LayoutInfo :=
  if windows.length ≤ 1 then
    { type := "single", description := "Single window" }
  else
    let sortedWindows := List.insertionSort winPosLe windows
    let uniqueRows := ((sortedWindows.map fun w => w.row).dedup).length
    let uniqueCols := ((sortedWindows.map fun w => w.col).dedup).length
    if uniqueRows = 1 ∧ 1 < uniqueCols then
      { type := "horizontal"
      , description := toString windows.length ++
          " windows with horizontal splits (side by side)" }
    else if 1 < uniqueRows ∧ uniqueCols = 1 then
      { type := "vertical"
      , description := toString windows.length ++
          " windows with vertical splits (stacked)" }
    else if 1 < uniqueRows ∧ 1 < uniqueCols then
      { type := "mixed"
      , description := toString windows.length ++
          " windows with mixed layout (vertical and horizontal splits)" }
    else
      { type := "complex"
      , description := toString windows.length ++ " windows with complex layout" }

/-- The handler's per-tab layout branches (`index.ts` lines 901-916):
`windowsInfo.length > 1` → `determineWindowLayout`, `=== 1` → single,
otherwise → empty. -/
def classifyTabLayout (windowsInfo : List WinGeom) : LayoutInfo :=
  if 1 < windowsInfo.length then
    determineWindowLayout windowsInfo
  else if windowsInfo.length = 1 then
    { type := "single", description := "Single window" }
  else
    { type := "empty", description := "No windows" }

/-- Number of distinct rows among the windows (the claim counts on the
unsorted list; sorting does not change it). -/
def distinctRows (windows : List WinGeom) : Nat :=
  ((windows.map fun w => w.row).dedup).length

/-- Number of distinct columns among the windows. -/
def distinctCols (windows : List WinGeom) : Nat :=
  ((windows.map fun w => w.col).dedup).length

/-! ## Helper lemmas -/

/-- A failed `connectToNeovim` call leaves the connection state unchanged. -/
theorem connectToNeovim_state_of_not_ok (env : ConnectEnv) (p : String)
    (s : ConnState) (h : (connectToNeovim env p s).ok = false) :
    (connectToNeovim env p s).state = s := by
  unfold connectToNeovim at h ⊢
  by_cases hs : env.socketExists = false
  · simp [hs]
  · cases ha : env.attachResult with
    | ok hh => simp [hs, ha] at h
    | error e => simp [hs, ha]

/-! ## Claims -/

/-- Claim C4: for every window with 1-based cursor line `c` and total line
count `n`, the 0-based fetch window is `startLine = max(0, (c − 1) − 100)`
and `endLine = min(n, (c − 1) + 100 + 1)` (end-exclusive), and the displayed
`visibleRange` reports `startLine + 1` (1-based) together with that
`endLine`; for a cursor line inside the buffer the fetch window is
well-formed (`0 ≤ startLine < endLine ≤ n`). -/
theorem visibleRange_formula (c n : Int) :
    rangeStartLine c n = max 0 ((c - 1) - 100) ∧
    rangeEndLine c n = min n ((c - 1) + 100 + 1) ∧
    (displayedVisibleRange c n).startLine = rangeStartLine c n + 1 ∧
    (displayedVisibleRange c n).endLine = rangeEndLine c n ∧
    (1 ≤ c → c ≤ n →
      0 ≤ rangeStartLine c n ∧ rangeStartLine c n < rangeEndLine c n ∧
        rangeEndLine c n ≤ n) := by
  refine ⟨rfl, rfl, rfl, rfl, fun h1 h2 => ?_⟩
  unfold rangeStartLine rangeEndLine contextLines
  omega

/-- Witness for C4 at cursor line 2 of a 10-line buffer. -/
theorem visibleRange_formula_witness :
    0 ≤ rangeStartLine 2 10 ∧ rangeStartLine 2 10 < rangeEndLine 2 10 ∧
      rangeEndLine 2 10 ≤ 10 :=
  (visibleRange_formula 2 10).2.2.2.2 (by norm_num) (by norm_num)

/-- Claim C8 as stated is false: for a zero-line buffer, the primary
full-content call and the cursor-neighbourhood calls use an end bound of 0,
not one clamped to at least 1 (only the full-content fallback clamps). -/
theorem zeroLineClamp_counterexample :
    ¬ (1 ≤ fullContentPrimaryEnd 0 ∧ 1 ≤ fullContentFallbackEnd 0 ∧
        1 ≤ sectionCallEnd 1 0) := by
  decide

/-- Claim C8 (amended): for a buffer whose resolved line count is zero, the
full-content raw-request fallback clamps its end bound to 1, while the
primary full-content call and both cursor-neighbourhood calls use end = 0;
no call resolves its end bound to the sentinel −1 (all end bounds are
non-negative). -/
theorem zeroLineBuffer_bounds (c : Int) (hc : 1 ≤ c) :
    fullContentFallbackEnd 0 = 1 ∧
    fullContentPrimaryEnd 0 = 0 ∧
    sectionCallEnd c 0 = 0 ∧
    0 ≤ fullContentPrimaryEnd 0 ∧ 0 ≤ fullContentFallbackEnd 0 ∧
      0 ≤ sectionCallEnd c 0 := by
  unfold fullContentFallbackEnd fullContentPrimaryEnd sectionCallEnd
    rangeEndLine contextLines
  omega

/-- Witness for the amended C8 at cursor line 1. -/
theorem zeroLineBuffer_bounds_witness :
    fullContentFallbackEnd 0 = 1 ∧ fullContentPrimaryEnd 0 = 0 ∧
    sectionCallEnd 1 0 = 0 ∧ 0 ≤ fullContentPrimaryEnd 0 ∧
    0 ≤ fullContentFallbackEnd 0 ∧ 0 ≤ sectionCallEnd 1 0 :=
  zeroLineBuffer_bounds 1 (by norm_num)

/-- Claim C2: `connectToNeovim` returns `false` without attempting `attach`
and without touching the stored handle when the socket file is missing;
when `attach` fails (refusal or timeout) it returns `false` and stores no
new connection; and it never throws past its boundary — every call produces
a boolean outcome together with logged diagnostics (the function is total
and always logs at least one line). -/
theorem connectToNeovim_contract (env : ConnectEnv) (p : String) (s : ConnState) :
    (env.socketExists = false →
      (connectToNeovim env p s).ok = false ∧
      (connectToNeovim env p s).attachAttempted = false ∧
      (connectToNeovim env p s).state = s) ∧
    (∀ e, env.attachResult = .error e →
      (connectToNeovim env p s).ok = false ∧
      (connectToNeovim env p s).state = s) ∧
    ((connectToNeovim env p s).ok = true ↔
      env.socketExists = true ∧ ∃ h, env.attachResult = .ok h) ∧
    (connectToNeovim env p s).logs ≠ [] := by
  unfold connectToNeovim
  by_cases hs : env.socketExists = false
  · simp [hs]
  · have hs' : env.socketExists = true := by
      revert hs; cases env.socketExists <;> simp
    cases ha : env.attachResult with
    | ok hh => simp [hs', ha]
    | error e2 => simp [hs', ha]

/-- Witness for C2: missing socket file at a concrete path. -/
theorem connectToNeovim_contract_witness :
    (connectToNeovim ⟨false, Except.error "ECONNREFUSED"⟩ "/tmp/nvim.sock"
        ⟨none⟩).ok = false ∧
    (connectToNeovim ⟨false, Except.error "ECONNREFUSED"⟩ "/tmp/nvim.sock"
        ⟨none⟩).attachAttempted = false ∧
    (connectToNeovim ⟨false, Except.error "ECONNREFUSED"⟩ "/tmp/nvim.sock"
        ⟨none⟩).state = ⟨none⟩ :=
  (connectToNeovim_contract ⟨false, Except.error "ECONNREFUSED"⟩
    "/tmp/nvim.sock" ⟨none⟩).1 rfl

/-- Claim C3: when a handle exists but the liveness probe fails, the
dispatcher resets the handle and attempts exactly one reconnect; if that
reconnect also fails, the request ends with a structured error response
(`isError = true`), the handle stays dropped, and any next incoming request
starts the connect cycle over (it performs a fresh connect attempt). -/
theorem staleConnection_single_retry (env : DispatchEnv) (p : String)
    (s : ConnState) (h0 : NvimHandle) (hConn : s.nvim = some h0)
    (hStale : env.aliveProbe = false) :
    (ensureConnection env p s).connectAttempts = 1 ∧
    ((connectToNeovim env.connectEnv p { nvim := none }).ok = false →
      (∃ resp, (ensureConnection env p s).response = some resp ∧
        resp.isError = true) ∧
      (ensureConnection env p s).state = { nvim := none } ∧
      ∀ env2 : DispatchEnv,
        (ensureConnection env2 p
          (ensureConnection env p s).state).connectAttempts = 1) := by
  obtain ⟨nv⟩ := s
  cases hConn
  by_cases hok : (connectToNeovim env.connectEnv p { nvim := none }).ok = true
  · constructor
    · simp [ensureConnection, hStale, hok]
    · intro hfail; rw [hok] at hfail; cases hfail
  · have hok' : (connectToNeovim env.connectEnv p { nvim := none }).ok = false := by
      revert hok; cases (connectToNeovim env.connectEnv p { nvim := none }).ok <;> simp
    have hstate := connectToNeovim_state_of_not_ok env.connectEnv p
      { nvim := none } hok'
    refine ⟨by simp [ensureConnection, hStale, hok'], fun _ => ⟨?_, ?_, ?_⟩⟩
    · refine ⟨⟨"Error: Lost connection to Neovim. Attempted to reconnect but failed. " ++
        "Please ensure Neovim is running with: nvim --listen " ++ p, true⟩, ?_, rfl⟩
      simp [ensureConnection, hStale, hok']
    · simp [ensureConnection, hStale, hok', hstate]
    · intro env2
      have hres : (ensureConnection env p (ConnState.mk (some h0))).state =
          { nvim := none } := by
        simp [ensureConnection, hStale, hok', hstate]
      rw [hres]
      unfold ensureConnection
      by_cases h2 : (connectToNeovim env2.connectEnv p { nvim := none }).ok = true <;>
        simp [h2]

/-- Witness for C3: stale handle, reconnect against a missing socket. -/
theorem staleConnection_single_retry_witness :
    (ensureConnection ⟨false, ⟨false, Except.error "refused"⟩⟩ "/tmp/nvim.sock"
        ⟨some ⟨0⟩⟩).connectAttempts = 1 ∧
    ∃ resp, (ensureConnection ⟨false, ⟨false, Except.error "refused"⟩⟩
        "/tmp/nvim.sock" ⟨some ⟨0⟩⟩).response = some resp ∧
      resp.isError = true :=
  ⟨(staleConnection_single_retry ⟨false, ⟨false, Except.error "refused"⟩⟩
      "/tmp/nvim.sock" ⟨some ⟨0⟩⟩ ⟨0⟩ rfl rfl).1,
   ((staleConnection_single_retry ⟨false, ⟨false, Except.error "refused"⟩⟩
      "/tmp/nvim.sock" ⟨some ⟨0⟩⟩ ⟨0⟩ rfl rfl).2 (by decide)).1⟩

/-- For an in-range column, the inserted marker splits the line exactly at
that column. -/
theorem insertCursorMarker_eq (s : List Char) (k : Nat) (hk : k ≤ s.length) :
    insertCursorMarker s k = s.take k ++ cursorEmoji ++ s.drop k := by
  unfold insertCursorMarker jsSubstring jsSubstringFrom
  simp [Nat.min_eq_left hk]

/-- Claim C6 as stated is false: re-applying the insertion to the already
marked line at the same column does not yield the same marked line (a second
marker appears). -/
theorem cursorMarker_not_idempotent :
    insertCursorMarker (insertCursorMarker "abcdef".data 3) 3 ≠
      insertCursorMarker "abcdef".data 3 := by
  decide

/-- Claim C6 (amended): cursor marker insertion is position-correct — for
`0 ≤ k ≤ length s` the marked line is the first `k` characters, the marker,
then the rest (including `k = 0` and `k = length`); recomputing from the
same original line gives the same marked line (the insertion is a pure
function of line and column), but applying the insertion to the already
marked line at the same column inserts a second marker instead of being
idempotent. -/
theorem cursorMarker_spec (s : List Char) (k : Nat) (hk : k ≤ s.length) :
    insertCursorMarker s k = s.take k ++ cursorEmoji ++ s.drop k ∧
    insertCursorMarker (insertCursorMarker s k) k =
      s.take k ++ cursorEmoji ++ (cursorEmoji ++ s.drop k) := by
  have h1 := insertCursorMarker_eq s k hk
  have htake : (s.take k).length = k := by
    simp [List.length_take, Nat.min_eq_left hk]
  refine ⟨h1, ?_⟩
  have hlen : k ≤ (insertCursorMarker s k).length := by
    rw [h1]
    simp only [List.length_append, htake]
    omega
  have hassoc : insertCursorMarker s k = s.take k ++ (cursorEmoji ++ s.drop k) := by
    rw [h1, List.append_assoc]
  rw [insertCursorMarker_eq _ k hlen, hassoc,
    List.take_left' htake, List.drop_left' htake]

/-- Witness for the amended C6 at line "abcdef", column 3. -/
theorem cursorMarker_spec_witness :
    insertCursorMarker "abcdef".data 3 =
      "abcdef".data.take 3 ++ cursorEmoji ++ "abcdef".data.drop 3 ∧
    insertCursorMarker (insertCursorMarker "abcdef".data 3) 3 =
      "abcdef".data.take 3 ++ cursorEmoji ++ (cursorEmoji ++ "abcdef".data.drop 3) :=
  cursorMarker_spec "abcdef".data 3 (by decide)

/-- Sorting the windows before counting does not change the number of
distinct values of any projection. -/
theorem dedup_length_insertionSort_map (f : WinGeom → Int) (ws : List WinGeom) :
    (((List.insertionSort winPosLe ws).map f).dedup).length =
      ((ws.map f).dedup).length :=
  (((List.perm_insertionSort winPosLe ws).map f).dedup).length_eq

/-- For more than one window, `determineWindowLayout` classifies by the two
distinct-position counts. -/
theorem determineWindowLayout_type (ws : List WinGeom) (h : 1 < ws.length) :
    (determineWindowLayout ws).type =
      if distinctRows ws = 1 ∧ 1 < distinctCols ws then "horizontal"
      else if 1 < distinctRows ws ∧ distinctCols ws = 1 then "vertical"
      else if 1 < distinctRows ws ∧ 1 < distinctCols ws then "mixed"
      else "complex" := by
  have hgt : ¬ ws.length ≤ 1 := by omega
  simp only [determineWindowLayout, if_neg hgt,
    dedup_length_insertionSort_map]
  unfold distinctRows distinctCols
  split_ifs <;> rfl

/-- Claim C7: layout classification returns "horizontal" for exactly one
distinct row and more than one distinct column, "vertical" for more than one
distinct row and exactly one distinct column, "mixed" when both counts
exceed one, "single" for exactly one window, "empty" for zero windows, and
"complex" otherwise (e.g. all windows sharing one row and one column). -/
theorem layout_classification (ws : List WinGeom) :
    (ws = [] → (classifyTabLayout ws).type = "empty") ∧
    (ws.length = 1 → (classifyTabLayout ws).type = "single") ∧
    (1 < ws.length →
      (distinctRows ws = 1 → 1 < distinctCols ws →
        (classifyTabLayout ws).type = "horizontal") ∧
      (1 < distinctRows ws → distinctCols ws = 1 →
        (classifyTabLayout ws).type = "vertical") ∧
      (1 < distinctRows ws → 1 < distinctCols ws →
        (classifyTabLayout ws).type = "mixed") ∧
      (distinctRows ws = 1 → distinctCols ws = 1 →
        (classifyTabLayout ws).type = "complex")) := by
  refine ⟨?_, ?_, fun hlen => ?_⟩
  · rintro rfl; rfl
  · intro h1
    have : ¬ (1 < ws.length) := by omega
    simp [classifyTabLayout, this, h1]
  · have hcl : (classifyTabLayout ws).type = (determineWindowLayout ws).type := by
      simp [classifyTabLayout, hlen]
    rw [hcl, determineWindowLayout_type ws hlen]
    refine ⟨fun h1 h2 => ?_, fun h1 h2 => ?_, fun h1 h2 => ?_, fun h1 h2 => ?_⟩ <;>
      split_ifs <;> first | rfl | omega

/-- Witness for C7: two side-by-side windows (same row, columns 0 and 40)
classify as "horizontal". -/
theorem layout_classification_witness :
    (classifyTabLayout [⟨0, 0, 40, 20⟩, ⟨0, 40, 40, 20⟩]).type = "horizontal" :=
  ((layout_classification [⟨0, 0, 40, 20⟩, ⟨0, 40, 40, 20⟩]).2.2
    (by decide)).1 (by decide) (by decide)

/-- An unresolved buffer number has sort key −1. -/
theorem bufSortKey_of_unresolved (b : BufferInfoEntry)
    (h : isUnresolvedBuf b = true) : bufSortKey b = -1 := by
  cases hb : b.number <;> simp [bufSortKey, isUnresolvedBuf, hb] at h ⊢

/-- A resolved entry from the per-buffer loop, for concrete checks. -/
def sampleResolvedBuf : BufferInfoEntry :=
  { number := .num 2, name := "/tmp/a.txt", isLoaded := true }

/-- Claim C5 as stated is false: with one resolved buffer (number 2) and one
error placeholder, the sort puts the placeholder (key −1) first, so
unresolvable numbers do not sort after all resolved ones. -/
theorem bufferSort_unresolvedLast_counterexample :
    ¬ unresolvedSortLast (sortAllBuffers [sampleResolvedBuf, errorBufferInfo]) := by
  unfold unresolvedSortLast
  decide

/-- Claim C5 (amended): the full buffer list is sorted ascending by the
comparator key (the buffer number, with unresolvable placeholders replaced
by −1); consequently, whenever every resolved buffer number is non-negative
(buffer numbers are ≥ 1), every unresolvable entry sorts before — not
after — all entries with resolved numbers. -/
theorem bufferSort_order (l : List BufferInfoEntry)
    (hpos : ∀ b ∈ l, isUnresolvedBuf b = false → 0 ≤ bufSortKey b) :
    (sortAllBuffers l).Pairwise bufNumLe ∧
    (sortAllBuffers l).Pairwise
      (fun a b => isUnresolvedBuf b = true → isUnresolvedBuf a = true) := by
  have hsorted : (sortAllBuffers l).Pairwise bufNumLe :=
    List.sorted_insertionSort bufNumLe l
  refine ⟨hsorted, hsorted.imp_of_mem ?_⟩
  intro a b ha hb hle hbu
  have ha' : a ∈ l := (List.perm_insertionSort bufNumLe l).mem_iff.1 ha
  by_contra hau
  have hau' : isUnresolvedBuf a = false := by
    revert hau; cases isUnresolvedBuf a <;> simp
  have h0 : 0 ≤ bufSortKey a := hpos a ha' hau'
  have hb1 : bufSortKey b = -1 := bufSortKey_of_unresolved b hbu
  unfold bufNumLe at hle
  omega

/-- Witness for the amended C5 on a concrete two-entry list. -/
theorem bufferSort_order_witness :
    (sortAllBuffers [sampleResolvedBuf, errorBufferInfo]).Pairwise bufNumLe ∧
    (sortAllBuffers [sampleResolvedBuf, errorBufferInfo]).Pairwise
      (fun a b => isUnresolvedBuf b = true → isUnresolvedBuf a = true) :=
  bufferSort_order [sampleResolvedBuf, errorBufferInfo] (by decide)

/-- Claim C1: a failure fetching one window's or one buffer's details never
aborts the whole read — the result has one entry per item, the failing item
becomes the fixed placeholder carrying the stringified diagnostic, and every
other item is processed exactly as it would have been on its own. -/
theorem multiEntityRead_fault_isolation (cur : Int)
    (wfetches : List (Except String WindowData))
    (bfetches : List (Except String BufferData)) :
    (processWindowsInTab cur wfetches).length = wfetches.length ∧
    (processAllBuffers bfetches).length = bfetches.length ∧
    (∀ (i : Nat) (e : String), wfetches[i]? = some (Except.error e) →
      (processWindowsInTab cur wfetches)[i]? = some (errorWindowSnapshot e)) ∧
    (∀ (i : Nat) (d : WindowData), wfetches[i]? = some (Except.ok d) →
      (processWindowsInTab cur wfetches)[i]? =
        some (processWindow cur (Except.ok d))) ∧
    (∀ (i : Nat) (e : String), bfetches[i]? = some (Except.error e) →
      (processAllBuffers bfetches)[i]? = some errorBufferInfo) := by
  refine ⟨by simp [processWindowsInTab], by simp [processAllBuffers], ?_, ?_, ?_⟩
  · intro i e hx
    simp [processWindowsInTab, List.getElem?_map, hx, processWindow]
  · intro i d hx
    simp [processWindowsInTab, List.getElem?_map, hx]
  · intro i e hx
    simp [processAllBuffers, List.getElem?_map, hx, processBuffer]

/-- A concrete successful window fetch, for the witnesses. -/
def sampleWindowData : WindowData :=
  { windowNumber := 1, bufferNumber := 3, bufferName := "/tmp/a.txt"
  , cursorRow := 1, cursorCol := 0, lineCount := 2
  , sectionLines := ["hello".data, "world".data] }

/-- Witness for C1: a failing second window and a failing buffer become the
placeholders while the read goes through. -/
theorem multiEntityRead_fault_isolation_witness :
    (processWindowsInTab 1
      [.ok sampleWindowData, .error "Timeout getting window number"])[1]? =
        some (errorWindowSnapshot "Timeout getting window number") ∧
    (processAllBuffers [Except.error "Timeout getting buffer name"])[0]? =
      some errorBufferInfo :=
  ⟨(multiEntityRead_fault_isolation 1
      [.ok sampleWindowData, .error "Timeout getting window number"]
      [.error "Timeout getting buffer name"]).2.2.1 1
      "Timeout getting window number" rfl,
   (multiEntityRead_fault_isolation 1
      [.ok sampleWindowData, .error "Timeout getting window number"]
      [.error "Timeout getting buffer name"]).2.2.2.2 0
      "Timeout getting buffer name" rfl⟩

/-- The number of snapshots flagged as current equals the multiplicity of
the current window number among the successfully fetched windows. -/
theorem countCurrentWindows_eq (cur : Int)
    (fetches : List (Except String WindowData)) :
    countCurrentWindows cur fetches = (okWindowNumbers fetches).count cur := by
  induction fetches with
  | nil => rfl
  | cons f tl ih =>
    cases f with
    | error e =>
      simpa [countCurrentWindows, processWindowsInTab, okWindowNumbers,
        List.countP_cons, processWindow, errorWindowSnapshot] using ih
    | ok d =>
      have hcomm : (cur == d.windowNumber) = (d.windowNumber == cur) := by
        by_cases h : cur = d.windowNumber <;> simp [h, eq_comm]
      simp only [countCurrentWindows, processWindowsInTab, List.map_cons,
        List.countP_cons, okWindowNumbers, List.filterMap_cons,
        List.count_cons] at ih ⊢
      simp [processWindow, hcomm, ih, List.count]

/-- Claim C9 as stated is false: when the current window's own fetch fails,
its placeholder carries `isCurrentWindow = false`, so no snapshot of the
active tab is flagged current (0, not exactly 1). -/
theorem currentWindow_exactlyOne_counterexample :
    countCurrentWindows 2
      [.ok sampleWindowData, .error "Timeout getting cursor position"] ≠ 1 := by
  decide

/-- Claim C9 (amended): among the snapshots assembled for the active tab,
at most one is flagged `isCurrentWindow = true` (assuming the successfully
fetched window numbers are distinct); it is exactly one precisely when the
current window number is among the successfully fetched windows — in
particular it is 0, not 1, in executions where the current window itself is
replaced by an error placeholder. -/
theorem currentWindow_count (cur : Int)
    (fetches : List (Except String WindowData))
    (hnodup : (okWindowNumbers fetches).Nodup) :
    countCurrentWindows cur fetches ≤ 1 ∧
    (cur ∈ okWindowNumbers fetches → countCurrentWindows cur fetches = 1) ∧
    (cur ∉ okWindowNumbers fetches → countCurrentWindows cur fetches = 0) := by
  rw [countCurrentWindows_eq]
  exact ⟨List.nodup_iff_count_le_one.1 hnodup cur,
    fun hm => List.count_eq_one_of_mem hnodup hm,
    fun hm => List.count_eq_zero.2 hm⟩

/-- Witness for the amended C9: the current window (number 2) errors out, so
the count is 0. -/
theorem currentWindow_count_witness :
    countCurrentWindows 2
      [.ok sampleWindowData, .error "Timeout getting cursor position"] = 0 :=
  (currentWindow_count 2
    [.ok sampleWindowData, .error "Timeout getting cursor position"]
    (by decide)).2.2 (by decide)

/-- The prefix scanner agrees with `IsPrefix`. -/
theorem isPrefixChars_iff (n h : List Char) :
    isPrefixChars n h = true ↔ n <+: h := by
  induction n generalizing h with
  | nil => simp [isPrefixChars]
  | cons a as ih =>
    cases h with
    | nil => simp [isPrefixChars]
    | cons b bs =>
      simp [isPrefixChars, ih, List.cons_prefix_cons, Bool.and_eq_true,
        beq_iff_eq]

/-- The substring scanner agrees with `IsInfix`. -/
theorem containsSubstring_iff (h n : List Char) :
    containsSubstring h n = true ↔ n <:+: h := by
  induction h with
  | nil => simp [containsSubstring, isPrefixChars_iff]
  | cons a tl ih =>
    simp [containsSubstring, isPrefixChars_iff, ih, List.infix_cons_iff,
      Bool.or_eq_true]

/-- Claim C10: `isTimeoutError` returns true exactly when the error's string
form contains, case-insensitively, one of "econnrefused", "connection
refused", "timeout" or "timed out" — so connection refusal is classified the
same way as a timeout, and every other error string yields false. -/
theorem isTimeoutError_spec (e : List Char) :
    isTimeoutError e = true ↔
      ciContains e "econnrefused".data ∨
      ciContains e "connection refused".data ∨
      ciContains e "timeout".data ∨
      ciContains e "timed out".data := by
  simp only [isTimeoutError, ciContains, Bool.or_eq_true, containsSubstring_iff]
  tauto

/-- Witness for C10: a connection-refused error string is classified as a
timeout. -/
theorem isTimeoutError_spec_witness :
    isTimeoutError "Error: connect ECONNREFUSED /tmp/nvim.sock".data = true :=
  (isTimeoutError_spec "Error: connect ECONNREFUSED /tmp/nvim.sock".data).mpr
    (Or.inl (by decide))

end Nvmmcp
